import Mathlib

/-!
# Verification of the kandalf cluster coordinator (`src/cluster/cluster.go`)

Shallow embedding of the cluster coordinator. Go code that calls into the
standard library, the configuration singleton or the vendored raft library is
modelled by an explicit environment (`Env`) of oracles: each fallible external
constructor is a function whose `none`/`error` result models a non-nil Go
error. The functions of `cluster.go` itself are translated line by line.
-/

namespace Kandalf


/-! ## Address resolution (`getFirstLocalAddr`, cluster.go lines 163-195)

A system network interface (`net.Interface`) is modelled by the outcome of its
`Addrs()` call: `none` models a non-nil error (the Go code only uses the error
for a `continue`), `some as` the returned address list. Each address
(`net.Addr`) is either a `*net.IPNet`, a `*net.IPAddr` (both carrying the text
produced by `IP.String()`), or some other dynamic type, which the switch in the
Go code leaves untouched. -/

inductive NetAddr where
  | ipNet (s : String)
  | ipAddr (s : String)
  | other
deriving DecidableEq

/-- The text the Go switch extracts from an address: `some` of the
`IP.String()` value for the two IP cases, `none` for any other type. -/
def NetAddr.str : NetAddr → Option String
  | .ipNet s => some s
  | .ipAddr s => some s
  | .other => none

structure Iface where
  addrs : Option (List NetAddr)
deriving DecidableEq

/-- Inner loop of `getFirstLocalAddr` (cluster.go lines 176-187): `result` is
the threaded named return variable; the switch overwrites it on the two IP
cases; `break` leaves the inner loop as soon as `len(result) > 0`. -/
def scanAddrs : String → List NetAddr → String
  | result, [] => result
  | result, a :: rest =>
    let result1 := match a with
      | .ipNet s => s
      | .ipAddr s => s
      | .other => result
    if result1.length > 0 then result1 else scanAddrs result1 rest

/-- Outer loop of `getFirstLocalAddr` (cluster.go lines 169-188): an interface
whose `Addrs()` errors is skipped (`continue`); note the Go `break` above only
leaves the inner loop, so the outer loop always visits every interface. -/
def scanIfaces : String → List Iface → String
  | result, [] => result
  | result, i :: rest =>
    match i.addrs with
    | none => scanIfaces result rest
    | some as => scanIfaces (scanAddrs result as) rest

/-- `getFirstLocalAddr` (cluster.go lines 163-195). The input is the outcome
of `net.Interfaces()`. The result is the Go pair `(result string, err error)`,
with `err` modelled as `Option String` (`none` = nil error). -/
def getFirstLocalAddr (interfaces : Except String (List Iface)) :
    String × Option String :=
  match interfaces with
  | .error e => ("", some e)
  | .ok ifaces =>
    let result := scanIfaces "" ifaces
    if result.length = 0 then ("", some "Unable to find local address to bind")
    else (result, none)

/-- An interface yields a non-empty address when its `Addrs()` call succeeds
and some returned address is an IP address with non-empty text. -/
def ifaceYieldsNonEmpty (i : Iface) : Bool :=
  (i.addrs.getD []).any fun a => (a.str.getD "") ≠ ""

def c5Ifaces : List Iface := [⟨none⟩, ⟨some [NetAddr.other, NetAddr.ipNet "10.0.0.1"]⟩]

/-! ## Leadership watcher (`listenForLeadership`, cluster.go lines 142-160)

The leadership-notification channel (`cl.raft.LeaderCh()`) is modelled as the
list of values pending on it, in delivery order. A blocking receive on a list
with a head consumes exactly that head; on an empty list the goroutine blocks
forever, modelled as `none`. The observable effects of the watcher are the
worker lifecycle events it performs, in order. -/

inductive WatcherEvent where
  | workerStopped
  | workerStarted
deriving DecidableEq

/-- `listenForLeadership` (cluster.go lines 142-160). The local variable
`worker` is declared with its zero value `nil` (line 145) and is still `nil`
when the `worker != nil` guard on line 152 runs; the guard and its body are
kept in the embedding exactly as in the source. Returns the events performed
and the values left on the channel, or `none` if the receive blocks forever. -/
def listenForLeadership (leaderCh : List Bool) :
    Option (List WatcherEvent × List Bool) :=
  let worker : Option Unit := none
  match leaderCh with
  | [] => none
  | becameLeader :: rest =>
    if becameLeader then
      let stopEvents := match worker with
        | some _ => [WatcherEvent.workerStopped]
        | none => []
      some (stopEvents ++ [WatcherEvent.workerStarted], rest)
    else
      some ([], rest)

/-! ## Lifecycle loop (`doRun`, cluster.go lines 132-138)

`doRun` launches the watcher as a concurrent task and then polls the liveness
flag `cl.RunnableWorker.IsWorking`, sleeping one `config.InfiniteCycleTimeout`
interval between polls. The flag over time is modelled as a function from the
poll index to its sampled value; `fuel` bounds how many polls we observe. The
loop result is `some n` when the loop returned after exactly `n` sleeps (the
poll with index `n` was the first to read `false`), and `none` when the flag
was still set at every observed poll, i.e. the loop had not returned. -/

def doRunLoop (isWorking : Nat → Bool) : Nat → Nat → Option Nat
  | 0, _ => none
  | fuel + 1, i => if isWorking i then doRunLoop isWorking fuel (i + 1) else some i

/-- `doRun` (cluster.go lines 132-138): spawn `listenForLeadership` on the
leadership channel, then run the polling loop on the liveness flag. -/
def doRun (leaderCh : List Bool) (isWorking : Nat → Bool) (fuel : Nat) :
    Option (List WatcherEvent × List Bool) × Option Nat :=
  (listenForLeadership leaderCh, doRunLoop isWorking fuel 0)

/-! ## Cluster bootstrap (`NewCluster`, cluster.go lines 29-130)

The configuration singleton is modelled by a `ClusterSettings` value whose
field defaults are the `U*` fallbacks in the Go code. Every fallible external
call (`time.ParseDuration`, `net.ResolveTCPAddr`, `raft.NewFileSnapshotStore`,
`raftboltdb.NewBoltStore`, `raft.NewTCPTransport`, `JSONPeers.SetPeers`,
`raft.NewRaft`) is an oracle in `Env`; `none` models a non-nil Go error. A
`logger.Fatal` terminates the process, modelled as `Except.error` carrying the
fields the Go code logs. `newCluster` additionally records the external calls
it makes, in order, as a `Step` trace, so that theorems can speak about which
constructors ran and with which arguments. -/

structure TCPAddr where
  id : Nat
deriving DecidableEq

structure SnapshotStore where
  id : Nat
deriving DecidableEq

structure BoltStore where
  id : Nat
deriving DecidableEq

structure Transport where
  id : Nat
deriving DecidableEq

structure RaftHandle where
  id : Nat
deriving DecidableEq

/-- The placeholder finite state machine built by `newFsm()` (spec §4.2 step 8:
applied entries have no observable effect). -/
structure Fsm where
deriving DecidableEq

def newFsm : Fsm := {}

/-- `raft.NewJSONPeers(clusterDataDir, transport)` (cluster.go line 105):
infallible construction of the peer registry handle. -/
structure JSONPeers where
  dataDir : String
  transport : Transport
deriving DecidableEq

def newJSONPeers (dataDir : String) (transport : Transport) : JSONPeers :=
  { dataDir := dataDir, transport := transport }

/-- The two fields of `raft.Config` that cluster.go touches (lines 109-113). -/
structure RaftConfig where
  enableSingleNode : Bool
  disableBootstrapAfterElect : Bool
deriving DecidableEq

/-- `raft.DefaultConfig()`, restricted to the two fields cluster.go touches.
In the vendored raft library the default is `EnableSingleNode = false` and
`DisableBootstrapAfterElect = true`: a node does not elect itself and needs a
majority vote to become leader. -/
def defaultConfig : RaftConfig :=
  { enableSingleNode := false, disableBootstrapAfterElect := true }

/-- Election bootstrap policy, cluster.go lines 109-113: start from
`raft.DefaultConfig()` and enable single-node auto-bootstrap exactly when the
seed peer list has at most one entry. -/
def deriveRaftConfig (clusterNodes : List String) : RaftConfig :=
  if clusterNodes.length ≤ 1 then
    { defaultConfig with enableSingleNode := true, disableBootstrapAfterElect := false }
  else defaultConfig

/-- Cluster settings read from the configuration singleton (cluster.go lines
33-38); the field defaults are the fallbacks passed to the `U*` accessors. -/
structure ClusterSettings where
  bindHost : String := ""
  bindPort : Nat := 11291
  dataDir : String := "/var/lib/kandalf"
  maxPool : Nat := 3
  nbSnapshot : Nat := 2
  timeoutStr : String := "10s"
deriving DecidableEq

/-- One nanosecond-denominated second, so `10 * second` is Go's
`10 * time.Second`. -/
def second : Nat := 1000000000

/-- Oracles for every external call `NewCluster` makes. Durations are in
nanoseconds. `setPeers` models `JSONPeers.SetPeers`, whose error return the Go
code discards; `newRaft` receives exactly the arguments of cluster.go line
115. -/
structure Env where
  interfaces : Except String (List Iface)
  parseDuration : String → Option Nat
  resolveTCPAddr : String → Option TCPAddr
  newFileSnapshotStore : String → Nat → Option SnapshotStore
  newBoltStore : String → Option BoltStore
  newTCPTransport : String → TCPAddr → Nat → Nat → Option Transport
  setPeers : JSONPeers → List String → Option Unit
  newRaft : RaftConfig → Fsm → BoltStore → BoltStore → SnapshotStore →
    JSONPeers → Transport → Option RaftHandle

/-- The logged context of each `logger.Fatal` exit in `NewCluster`, one
constructor per fatal site, carrying the fields the Go code attaches. -/
inductive FatalError where
  | resolution (err : String)
  | addressFormat (addr : String)
  | snapshotStore (dataDir : String) (nbSnapshot : Nat)
  | boltStore (path : String)
  | transport (addr : String) (maxPool : Nat) (timeout : Nat)
  | raftInit
deriving DecidableEq

/-- External calls of `NewCluster`, with the arguments the Go code passes. -/
inductive Step where
  | getFirstLocalAddr
  | resolveTCPAddr (addr : String)
  | newFileSnapshotStore (dataDir : String) (nbSnapshot : Nat)
  | newBoltStore (path : String)
  | newTCPTransport (bind : String) (maxPool : Nat) (timeout : Nat)
  | newJSONPeers (dataDir : String)
  | setPeers (nodes : List String)
  | newRaft (cnf : RaftConfig)
deriving DecidableEq

inductive StepKind where
  | getFirstLocalAddr
  | resolveTCPAddr
  | newFileSnapshotStore
  | newBoltStore
  | newTCPTransport
  | newJSONPeers
  | setPeers
  | newRaft
deriving DecidableEq

def Step.kind : Step → StepKind
  | .getFirstLocalAddr => .getFirstLocalAddr
  | .resolveTCPAddr _ => .resolveTCPAddr
  | .newFileSnapshotStore _ _ => .newFileSnapshotStore
  | .newBoltStore _ => .newBoltStore
  | .newTCPTransport _ _ _ => .newTCPTransport
  | .newJSONPeers _ => .newJSONPeers
  | .setPeers _ => .setPeers
  | .newRaft _ => .newRaft

/-- The external call at which each fatal exit happens. -/
def FatalError.stepKind : FatalError → StepKind
  | .resolution _ => .getFirstLocalAddr
  | .addressFormat _ => .resolveTCPAddr
  | .snapshotStore _ _ => .newFileSnapshotStore
  | .boltStore _ => .newBoltStore
  | .transport _ _ _ => .newTCPTransport
  | .raftInit => .newRaft

/-- The order in which `NewCluster` makes its external calls. -/
def bootstrapOrder : List StepKind :=
  [.getFirstLocalAddr, .resolveTCPAddr, .newFileSnapshotStore, .newBoltStore,
   .newTCPTransport, .newJSONPeers, .setPeers, .newRaft]

/-- The successfully constructed `Cluster` value (cluster.go lines 122-125);
only the raft handle is observable (the mutex and runnable wrapper carry no
data). -/
structure Cluster where
  raft : RaftHandle
deriving DecidableEq

/-- cluster.go lines 38-41: parse `cluster.timeout`; on a parse error fall
back to `10 * time.Second` without failing. -/
def effectiveTimeout (env : Env) (timeoutStr : String) : Nat :=
  match env.parseDuration timeoutStr with
  | some d => d
  | none => 10 * second

/-- cluster.go lines 43-50: use the configured bind host if non-empty, else
ask `getFirstLocalAddr`, fatally logging a resolution failure. Returns the
steps taken and the chosen host. -/
def resolveBindHost (env : Env) (s : ClusterSettings) :
    List Step × Except FatalError String :=
  if s.bindHost.length = 0 then
    match getFirstLocalAddr env.interfaces with
    | (host, none) => ([Step.getFirstLocalAddr], Except.ok host)
    | (_, some e) => ([Step.getFirstLocalAddr], Except.error (FatalError.resolution e))
  else ([], Except.ok s.bindHost)

/-- cluster.go lines 52-129, given the already-chosen bind host: compose the
`host:port` bind string, resolve it, build snapshot store, bolt store,
transport and peer registry, derive the election config and instantiate raft.
Each returned trace lists the external calls made up to and including the
failing one. `filepath.Join(clusterDataDir, "raft.db")` is modelled as string
append with a separator, and the result of `peerStore.SetPeers(clusterNodes)`
is discarded exactly as the Go code discards it (line 106). -/
def newClusterFromHost (env : Env) (s : ClusterSettings) (clusterNodes : List String)
    (clusterBindHost : String) : List Step × Except FatalError Cluster :=
  let clusterTimeout := effectiveTimeout env s.timeoutStr
  let clusterBind := clusterBindHost ++ ":" ++ toString s.bindPort
  match env.resolveTCPAddr clusterBind with
  | none => ([Step.resolveTCPAddr clusterBind],
      Except.error (FatalError.addressFormat clusterBind))
  | some addr =>
    match env.newFileSnapshotStore s.dataDir s.nbSnapshot with
    | none => ([Step.resolveTCPAddr clusterBind,
        Step.newFileSnapshotStore s.dataDir s.nbSnapshot],
        Except.error (FatalError.snapshotStore s.dataDir s.nbSnapshot))
    | some snapshots =>
      let boltPath := s.dataDir ++ "/" ++ "raft.db"
      match env.newBoltStore boltPath with
      | none => ([Step.resolveTCPAddr clusterBind,
          Step.newFileSnapshotStore s.dataDir s.nbSnapshot,
          Step.newBoltStore boltPath],
          Except.error (FatalError.boltStore boltPath))
      | some boltStore =>
        match env.newTCPTransport clusterBind addr s.maxPool clusterTimeout with
        | none => ([Step.resolveTCPAddr clusterBind,
            Step.newFileSnapshotStore s.dataDir s.nbSnapshot,
            Step.newBoltStore boltPath,
            Step.newTCPTransport clusterBind s.maxPool clusterTimeout],
            Except.error (FatalError.transport clusterBind s.maxPool clusterTimeout))
        | some transport =>
          let peerStore := newJSONPeers s.dataDir transport
          let _ := env.setPeers peerStore clusterNodes
          let cnf := deriveRaftConfig clusterNodes
          match env.newRaft cnf newFsm boltStore boltStore snapshots peerStore transport with
          | none => ([Step.resolveTCPAddr clusterBind,
              Step.newFileSnapshotStore s.dataDir s.nbSnapshot,
              Step.newBoltStore boltPath,
              Step.newTCPTransport clusterBind s.maxPool clusterTimeout,
              Step.newJSONPeers s.dataDir, Step.setPeers clusterNodes,
              Step.newRaft cnf],
              Except.error FatalError.raftInit)
          | some ra => ([Step.resolveTCPAddr clusterBind,
              Step.newFileSnapshotStore s.dataDir s.nbSnapshot,
              Step.newBoltStore boltPath,
              Step.newTCPTransport clusterBind s.maxPool clusterTimeout,
              Step.newJSONPeers s.dataDir, Step.setPeers clusterNodes,
              Step.newRaft cnf],
              Except.ok { raft := ra })

/-- `NewCluster` (cluster.go lines 29-130): choose the bind host (lines
43-50), then run the rest of the bootstrap (lines 52-129). Returns the
external calls performed, in order, and either the fatal exit or the
constructed cluster. -/
def newCluster (env : Env) (s : ClusterSettings) (clusterNodes : List String) :
    List Step × Except FatalError Cluster :=
  match resolveBindHost env s with
  | (tr, Except.error e) => (tr, Except.error e)
  | (tr, Except.ok clusterBindHost) =>
    let rest := newClusterFromHost env s clusterNodes clusterBindHost
    (tr ++ rest.1, rest.2)

/-- The tail of the canonical call order, after local-address resolution. -/
def fromHostOrder : List StepKind :=
  [StepKind.resolveTCPAddr, StepKind.newFileSnapshotStore, StepKind.newBoltStore,
   StepKind.newTCPTransport, StepKind.newJSONPeers, StepKind.setPeers,
   StepKind.newRaft]

def envAllOk : Env where
  interfaces := Except.ok [⟨some [NetAddr.ipNet "10.0.0.1"]⟩]
  parseDuration := fun t => if t = "10s" then some (10 * second) else none
  resolveTCPAddr := fun _ => some ⟨0⟩
  newFileSnapshotStore := fun _ _ => some ⟨0⟩
  newBoltStore := fun _ => some ⟨0⟩
  newTCPTransport := fun _ _ _ _ => some ⟨0⟩
  setPeers := fun _ _ => some ()
  newRaft := fun _ _ _ _ _ _ _ => some ⟨0⟩

/-- The settings left entirely at their configured defaults. -/
def sDef : ClusterSettings := {}

def sBadTimeout : ClusterSettings := { timeoutStr := "not-a-duration" }

def sC7 : ClusterSettings := { bindHost := "192.168.1.5" }

def envNoIfaces : Env := { envAllOk with interfaces := Except.ok [] }

def envSetPeersFails : Env := { envAllOk with setPeers := fun _ _ => none }

def envBoltFails : Env := { envAllOk with newBoltStore := fun _ => none }

/-! ## Theorems -/

lemma string_length_pos (s : String) : 0 < s.length ↔ s ≠ "" := by
  obtain ⟨data⟩ := s
  simp [String.length, List.length_pos, String.ext_iff]

lemma string_length_eq_zero (s : String) : s.length = 0 ↔ s = "" := by
  constructor
  · intro h0
    by_contra hne
    have := (string_length_pos s).2 hne
    omega
  · intro h0
    subst h0
    rfl

lemma scanIfaces_filter (res : String) (l : List Iface) :
    scanIfaces res (l.filter fun i => i.addrs.isSome) = scanIfaces res l := by
  induction l generalizing res with
  | nil => rfl
  | cons i rest ih =>
    cases h : i.addrs with
    | none => simp [scanIfaces, List.filter_cons, h, ih]
    | some as => simp [scanIfaces, List.filter_cons, h, ih]

lemma scanAddrs_eq_empty (res : String) (as : List NetAddr)
    (h : ∀ a ∈ as, a.str ≠ some "") :
    scanAddrs res as = "" ↔ res = "" ∧ ∀ a ∈ as, a.str = none := by
  induction as generalizing res with
  | nil => simp [scanAddrs]
  | cons a rest ih =>
    have ha := h a (List.mem_cons_self a rest)
    have hrest : ∀ x ∈ rest, x.str ≠ some "" :=
      fun x hx => h x (List.mem_cons_of_mem a hx)
    cases a with
    | ipNet s =>
      have hs : s ≠ "" := by
        intro he
        exact ha (by simp [NetAddr.str, he])
      have hlen : s.length > 0 := (string_length_pos s).2 hs
      simp only [scanAddrs, if_pos hlen]
      simp [NetAddr.str, hs]
    | ipAddr s =>
      have hs : s ≠ "" := by
        intro he
        exact ha (by simp [NetAddr.str, he])
      have hlen : s.length > 0 := (string_length_pos s).2 hs
      simp only [scanAddrs, if_pos hlen]
      simp [NetAddr.str, hs]
    | other =>
      by_cases hres : res.length > 0
      · have hne : res ≠ "" := (string_length_pos res).1 hres
        simp only [scanAddrs, if_pos hres]
        simp [hne]
      · have heq : res = "" := (string_length_eq_zero res).1 (by omega)
        subst heq
        simp only [scanAddrs, if_neg hres]
        simp [ih "" hrest, NetAddr.str]

lemma addr_str_getD_empty {a : NetAddr} (h : a.str ≠ some "") :
    (a.str.getD "" = "") ↔ a.str = none := by
  cases hs : a.str with
  | none => simp
  | some s =>
    rw [hs] at h
    have hsne : s ≠ "" := fun he => h (by rw [he])
    simp [hsne]

lemma iface_yields_false {i : Iface}
    (h : ∀ a ∈ i.addrs.getD [], a.str ≠ some "") :
    ifaceYieldsNonEmpty i = false ↔ ∀ a ∈ i.addrs.getD [], a.str = none := by
  unfold ifaceYieldsNonEmpty
  rw [List.any_eq_false]
  constructor
  · intro hall a hm
    exact (addr_str_getD_empty (h a hm)).1 (by simpa using hall a hm)
  · intro hall a hm
    simp [(addr_str_getD_empty (h a hm)).2 (hall a hm)]

lemma scanIfaces_eq_empty (res : String) (l : List Iface)
    (h : ∀ i ∈ l, ∀ a ∈ i.addrs.getD [], a.str ≠ some "") :
    scanIfaces res l = "" ↔ res = "" ∧ ∀ i ∈ l, ifaceYieldsNonEmpty i = false := by
  induction l generalizing res with
  | nil => simp [scanIfaces]
  | cons i rest ih =>
    have hi := h i (List.mem_cons_self i rest)
    have hrest : ∀ x ∈ rest, ∀ a ∈ x.addrs.getD [], a.str ≠ some "" :=
      fun x hx => h x (List.mem_cons_of_mem i hx)
    cases haddr : i.addrs with
    | none =>
      have hy : ifaceYieldsNonEmpty i = false := by
        simp [ifaceYieldsNonEmpty, haddr]
      simp only [scanIfaces, haddr, ih res hrest]
      simp [hy]
    | some as =>
      rw [haddr] at hi
      simp only [Option.getD_some] at hi
      have hyields : ifaceYieldsNonEmpty i = false ↔ ∀ a ∈ as, a.str = none := by
        rw [iface_yields_false (by simpa [haddr] using hi)]
        simp [haddr]
      simp only [scanIfaces, haddr, ih (scanAddrs res as) hrest,
        scanAddrs_eq_empty res as hi]
      constructor
      · rintro ⟨⟨h1, h2⟩, h3⟩
        exact ⟨h1, by
          intro x hx
          rcases List.mem_cons.1 hx with hx1 | hx2
          · subst hx1; exact hyields.2 h2
          · exact h3 x hx2⟩
      · rintro ⟨h1, h2⟩
        refine ⟨⟨h1, hyields.1 (h2 i (List.mem_cons_self i rest))⟩, ?_⟩
        intro x hx
        exact h2 x (List.mem_cons_of_mem i hx)

/-- C10: every run of `getFirstLocalAddr` returns either a non-empty address
with a nil error or the empty string with a non-nil error; an empty address is
never paired with a nil error. -/
theorem getFirstLocalAddr_dichotomy (interfaces : Except String (List Iface)) :
    ((getFirstLocalAddr interfaces).1 ≠ "" ∧ (getFirstLocalAddr interfaces).2 = none)
    ∨ ((getFirstLocalAddr interfaces).1 = "" ∧ (getFirstLocalAddr interfaces).2 ≠ none) := by
  cases interfaces with
  | error e =>
    right
    simp [getFirstLocalAddr]
  | ok l =>
    by_cases hz : (scanIfaces "" l).length = 0
    · right
      simp [getFirstLocalAddr, hz]
    · left
      have hne : scanIfaces "" l ≠ "" := fun he => hz (by rw [he]; rfl)
      simp [getFirstLocalAddr, hz, hne]

/-- C3 (code bug): with two interfaces, each exposing one address, the code
returns the address of the LAST interface, not the first: the `break` in
`getFirstLocalAddr` only leaves the inner address loop, the outer interface
loop keeps running and overwrites `result`, contradicting the function's own
comment ("Returns first found IP address") and the spec. -/
theorem getFirstLocalAddr_last_iface_wins :
    getFirstLocalAddr (Except.ok
      [⟨some [NetAddr.ipNet "10.0.0.1"]⟩, ⟨some [NetAddr.ipNet "192.168.0.7"]⟩]) =
      ("192.168.0.7", none) := by
  rfl

/-- C5: an interface whose address read errors is skipped, never fatal (the
result is unchanged when erroring interfaces are filtered out), and — given
that IP address text is never the empty string, as with Go's `IP.String()` —
the function returns an error exactly when no interface yields a non-empty
address. -/
theorem getFirstLocalAddr_skip_and_error_iff (l : List Iface)
    (h : ∀ i ∈ l, ∀ a ∈ i.addrs.getD [], a.str ≠ some "") :
    getFirstLocalAddr (.ok l) =
      getFirstLocalAddr (.ok (l.filter fun i => i.addrs.isSome))
    ∧ (getFirstLocalAddr (.ok l)).2.isSome = !(l.any ifaceYieldsNonEmpty) := by
  constructor
  · simp [getFirstLocalAddr, scanIfaces_filter]
  · have hiff := scanIfaces_eq_empty "" l h
    simp only [true_and] at hiff
    by_cases hempty : scanIfaces "" l = ""
    · have hall := hiff.1 hempty
      have hany : l.any ifaceYieldsNonEmpty = false := by
        rw [List.any_eq_false]
        intro x hx
        simp [hall x hx]
      simp [getFirstLocalAddr, (string_length_eq_zero _).2 hempty, hany]
    · have hlen : ¬ (scanIfaces "" l).length = 0 :=
        fun hz => hempty ((string_length_eq_zero _).1 hz)
      have hany : l.any ifaceYieldsNonEmpty = true := by
        by_contra hc
        rw [Bool.not_eq_true, List.any_eq_false] at hc
        exact hempty (hiff.2 fun x hx => by simpa using hc x hx)
      simp [getFirstLocalAddr, hlen, hany]

/-- Witness for C5 at a concrete interface list containing one erroring
interface and one interface with a usable address. -/
theorem getFirstLocalAddr_skip_and_error_iff_witness :
    getFirstLocalAddr (.ok c5Ifaces) =
      getFirstLocalAddr (.ok (c5Ifaces.filter fun i => i.addrs.isSome))
    ∧ (getFirstLocalAddr (.ok c5Ifaces)).2.isSome = !(c5Ifaces.any ifaceYieldsNonEmpty) :=
  getFirstLocalAddr_skip_and_error_iff c5Ifaces (by decide)

/-- C1: on receiving a first channel value `b`, the watcher starts exactly one
Worker when `b` is true and performs no action when `b` is false, consumes only
that first value (the rest of the channel is left untouched), and the watcher
task ends (the result is `some`). -/
theorem listenForLeadership_single_shot (b : Bool) (rest : List Bool) :
    listenForLeadership (b :: rest) =
      some ((if b then [WatcherEvent.workerStarted] else []), rest) := by
  cases b <;> rfl

/-- C9: the stop branch guarded by `worker != nil` is dead code — for every
channel input, the watcher never emits a worker-stop event. -/
theorem listenForLeadership_no_stop (leaderCh : List Bool)
    (evs : List WatcherEvent) (rest : List Bool)
    (h : listenForLeadership leaderCh = some (evs, rest)) :
    WatcherEvent.workerStopped ∉ evs := by
  cases leaderCh with
  | nil => simp [listenForLeadership] at h
  | cons b tl =>
    cases b
    · have h3 : some ((([] : List WatcherEvent), tl)) = some (evs, rest) := h
      have h5 : evs = [] :=
        (congrArg Prod.fst (Option.some.inj h3)).symm
      simp [h5]
    · have h3 : some (([WatcherEvent.workerStarted], tl)) = some (evs, rest) := h
      have h5 : evs = [WatcherEvent.workerStarted] :=
        (congrArg Prod.fst (Option.some.inj h3)).symm
      simp [h5]

/-- Witness for C9 on the channel delivering a single `true`. -/
theorem listenForLeadership_no_stop_witness :
    WatcherEvent.workerStopped ∉ [WatcherEvent.workerStarted] :=
  listenForLeadership_no_stop [true] [WatcherEvent.workerStarted] [] rfl

lemma doRunLoop_none (isWorking : Nat → Bool) (m j : Nat)
    (h : ∀ i, j ≤ i → i < j + m → isWorking i = true) :
    doRunLoop isWorking m j = none := by
  induction m generalizing j with
  | zero => rfl
  | succ k ih =>
    have hj : isWorking j = true := h j (Nat.le_refl j) (by omega)
    simp only [doRunLoop, hj, if_true]
    exact ih (j + 1) (fun i h1 h2 => h i (by omega) (by omega))

lemma doRunLoop_exit (isWorking : Nat → Bool) (n : Nat)
    (hn : isWorking n = false) (fuel j : Nat)
    (hbefore : ∀ i, j ≤ i → i < n → isWorking i = true)
    (hj : j ≤ n) (hfuel : n - j < fuel) :
    doRunLoop isWorking fuel j = some n := by
  induction fuel generalizing j with
  | zero => omega
  | succ k ih =>
    by_cases hjn : j = n
    · subst hjn
      simp [doRunLoop, hn]
    · have hjw : isWorking j = true := hbefore j (Nat.le_refl j) (by omega)
      simp only [doRunLoop, hjw, if_true]
      exact ih (j + 1) (fun i h1 h2 => hbefore i (by omega) h2) (by omega) (by omega)

/-- C8: if the liveness flag reads true at every poll before index `n` and
false at poll `n` (it was cleared during the sleep preceding poll `n`), the
loop of `doRun` returns at poll `n`, i.e. within one cycle interval of the
clear; and as long as every observed poll reads true the loop has not
returned. -/
theorem doRun_loop_exit (leaderCh : List Bool) (isWorking : Nat → Bool)
    (n fuel m : Nat)
    (hn : isWorking n = false)
    (hbefore : ∀ i, i < n → isWorking i = true)
    (hfuel : n < fuel)
    (hm : ∀ i, i < m → isWorking i = true) :
    (doRun leaderCh isWorking fuel).2 = some n
    ∧ doRunLoop isWorking m 0 = none := by
  constructor
  · exact doRunLoop_exit isWorking n hn fuel 0
      (fun i h1 h2 => hbefore i h2) (Nat.zero_le n) (by omega)
  · exact doRunLoop_none isWorking m 0 (fun i h1 h2 => hm i (by omega))

/-- Witness for C8: the flag is cleared before the poll with index 2, and the
loop returns exactly there. -/
theorem doRun_loop_exit_witness :
    (doRun [true] (fun i => decide (i < 2)) 5).2 = some 2
    ∧ doRunLoop (fun i => decide (i < 2)) 2 0 = none :=
  doRun_loop_exit [true] (fun i => decide (i < 2)) 2 5 2 (by decide)
    (fun i hi => by simp [hi]) (by omega) (fun i hi => by simp [hi])

lemma resolveBindHost_nonempty (env : Env) (s : ClusterSettings)
    (h : ¬ s.bindHost.length = 0) :
    resolveBindHost env s = ([], Except.ok s.bindHost) := by
  simp [resolveBindHost, h]

lemma resolveBindHost_empty_err (env : Env) (s : ClusterSettings) (e : String)
    (h : s.bindHost.length = 0)
    (he : (getFirstLocalAddr env.interfaces).2 = some e) :
    resolveBindHost env s =
      ([Step.getFirstLocalAddr], Except.error (FatalError.resolution e)) := by
  unfold resolveBindHost
  rw [if_pos h]
  rcases hg : getFirstLocalAddr env.interfaces with ⟨host, herr⟩
  rw [hg] at he
  simp only at he
  subst he
  rfl

lemma resolveBindHost_empty_ok (env : Env) (s : ClusterSettings)
    (h : s.bindHost.length = 0)
    (hok : (getFirstLocalAddr env.interfaces).2 = none) :
    resolveBindHost env s =
      ([Step.getFirstLocalAddr], Except.ok (getFirstLocalAddr env.interfaces).1) := by
  unfold resolveBindHost
  rw [if_pos h]
  rcases hg : getFirstLocalAddr env.interfaces with ⟨host, herr⟩
  rw [hg] at hok
  simp only at hok
  subst hok
  rfl

/-- The trace of the post-host bootstrap stage always starts with the TCP
resolution of the composed `host:port` bind string. -/
lemma newClusterFromHost_trace_head (env : Env) (s : ClusterSettings)
    (nodes : List String) (host : String) :
    ∃ tl, (newClusterFromHost env s nodes host).1 =
      Step.resolveTCPAddr (host ++ ":" ++ toString s.bindPort) :: tl := by
  simp only [newClusterFromHost]
  repeat' split
  all_goals exact ⟨_, rfl⟩

lemma newClusterFromHost_master (env : Env) (s : ClusterSettings)
    (nodes : List String) (host : String) :
    List.Sublist ((newClusterFromHost env s nodes host).1.map Step.kind) fromHostOrder
    ∧ ∀ e, (newClusterFromHost env s nodes host).2 = Except.error e →
        ((newClusterFromHost env s nodes host).1.map Step.kind).getLast? =
          some e.stepKind := by
  simp only [newClusterFromHost]
  repeat' split
  all_goals
    refine ⟨?_, ?_⟩
    · simp only [List.map_cons, List.map_nil, Step.kind]
      decide
    · intro e he
      simp only at he
      first
        | (injection he with h5
           subst h5
           simp [Step.kind, FatalError.stepKind])
        | exact absurd he (by simp)

lemma newCluster_master (env : Env) (s : ClusterSettings) (nodes : List String) :
    List.Sublist ((newCluster env s nodes).1.map Step.kind) bootstrapOrder
    ∧ ∀ e, (newCluster env s nodes).2 = Except.error e →
        ((newCluster env s nodes).1.map Step.kind).getLast? = some e.stepKind := by
  have hfh := newClusterFromHost_master env s nodes
  by_cases hb : s.bindHost.length = 0
  · cases herr : (getFirstLocalAddr env.interfaces).2 with
    | some e =>
      simp only [newCluster, resolveBindHost_empty_err env s e hb herr]
      refine ⟨by decide, ?_⟩
      intro e2 he2
      injection he2 with h5
      subst h5
      simp [Step.kind, FatalError.stepKind]
    | none =>
      simp only [newCluster, resolveBindHost_empty_ok env s hb herr]
      set host := (getFirstLocalAddr env.interfaces).1
      obtain ⟨tl, htl⟩ := newClusterFromHost_trace_head env s nodes host
      refine ⟨?_, ?_⟩
      · simp only [List.map_cons, List.singleton_append, Step.kind]
        exact (hfh host).1.cons₂ StepKind.getFirstLocalAddr
      · intro e he
        have h2 := (hfh host).2 e he
        have hne : (newClusterFromHost env s nodes host).1.map Step.kind ≠ [] := by
          rw [htl]
          simp
        simp only [List.map_append, List.getLast?_append]
        rw [h2]
        rfl
  · simp only [newCluster, resolveBindHost_nonempty env s hb]
    refine ⟨?_, ?_⟩
    · simp only [List.nil_append]
      exact (hfh s.bindHost).1.cons StepKind.getFirstLocalAddr
    · intro e he
      have h2 := (hfh s.bindHost).2 e he
      simp only [List.nil_append]
      exact h2

/-- C2: with at most one seed peer the raft config enables single-node
auto-bootstrap (and re-enables bootstrap after election); with more than one
peer the config is left at the library default, where a node does not elect
itself and a majority vote is required. -/
theorem deriveRaftConfig_bootstrap_policy (clusterNodes : List String) :
    (clusterNodes.length ≤ 1 →
      deriveRaftConfig clusterNodes =
        { enableSingleNode := true, disableBootstrapAfterElect := false })
    ∧ (1 < clusterNodes.length →
      deriveRaftConfig clusterNodes = defaultConfig
      ∧ (deriveRaftConfig clusterNodes).enableSingleNode = false) := by
  constructor
  · intro h
    simp [deriveRaftConfig, h, defaultConfig]
  · intro h
    have hn : ¬ clusterNodes.length ≤ 1 := by omega
    simp [deriveRaftConfig, hn, defaultConfig]

/-- Witness for C2 on a one-peer and a two-peer seed list. -/
theorem deriveRaftConfig_bootstrap_policy_witness :
    (deriveRaftConfig ["10.0.0.1:11291"] =
      { enableSingleNode := true, disableBootstrapAfterElect := false })
    ∧ (deriveRaftConfig ["10.0.0.1:11291", "10.0.0.2:11291"] = defaultConfig
      ∧ (deriveRaftConfig ["10.0.0.1:11291", "10.0.0.2:11291"]).enableSingleNode
          = false) :=
  ⟨(deriveRaftConfig_bootstrap_policy ["10.0.0.1:11291"]).1 (by decide),
   (deriveRaftConfig_bootstrap_policy
     ["10.0.0.1:11291", "10.0.0.2:11291"]).2 (by decide)⟩

/-- C6: when the configured timeout string does not parse, the effective RPC
timeout is 10 seconds and no fatal error results: the whole bootstrap behaves
exactly as it does with a timeout string that parses to 10 seconds. -/
theorem newCluster_timeout_fallback (env : Env) (s : ClusterSettings)
    (clusterNodes : List String) (t2 : String)
    (h : env.parseDuration s.timeoutStr = none)
    (h2 : env.parseDuration t2 = some (10 * second)) :
    effectiveTimeout env s.timeoutStr = 10 * second
    ∧ newCluster env s clusterNodes =
        newCluster env { s with timeoutStr := t2 } clusterNodes := by
  refine ⟨by simp [effectiveTimeout, h], ?_⟩
  simp [newCluster, resolveBindHost, newClusterFromHost, effectiveTimeout, h, h2]

/-- Witness for C6 with `cluster.timeout = "not-a-duration"`. -/
theorem newCluster_timeout_fallback_witness :
    effectiveTimeout envAllOk sBadTimeout.timeoutStr = 10 * second
    ∧ newCluster envAllOk sBadTimeout ["10.0.0.1:11291"] =
        newCluster envAllOk { sBadTimeout with timeoutStr := "10s" }
          ["10.0.0.1:11291"] :=
  newCluster_timeout_fallback envAllOk sBadTimeout ["10.0.0.1:11291"] "10s"
    (by decide) (by decide)

/-- C7: bind-address choice. With a non-empty configured host the resolver is
never invoked and the first external call resolves the composed
`host:port` string; with an empty host the resolver is invoked first, a
resolution failure is fatal with the resolver's error, and on success the
composed `resolvedHost:port` string is what gets resolved. -/
theorem newCluster_bind_resolution (env1 env2 env3 : Env)
    (s1 s2 s3 : ClusterSettings) (nodes1 nodes2 nodes3 : List String) (e : String)
    (h1 : ¬ s1.bindHost.length = 0)
    (h2 : s2.bindHost.length = 0)
    (h2e : (getFirstLocalAddr env2.interfaces).2 = some e)
    (h3 : s3.bindHost.length = 0)
    (h3ok : (getFirstLocalAddr env3.interfaces).2 = none) :
    (StepKind.getFirstLocalAddr ∉ (newCluster env1 s1 nodes1).1.map Step.kind
      ∧ (newCluster env1 s1 nodes1).1.head? =
          some (Step.resolveTCPAddr (s1.bindHost ++ ":" ++ toString s1.bindPort)))
    ∧ ((newCluster env2 s2 nodes2).1 = [Step.getFirstLocalAddr]
      ∧ (newCluster env2 s2 nodes2).2 = Except.error (FatalError.resolution e))
    ∧ (newCluster env3 s3 nodes3).1.take 2 =
        [Step.getFirstLocalAddr,
         Step.resolveTCPAddr
           ((getFirstLocalAddr env3.interfaces).1 ++ ":" ++ toString s3.bindPort)] := by
  refine ⟨⟨?_, ?_⟩, ⟨?_, ?_⟩, ?_⟩
  · simp only [newCluster, resolveBindHost_nonempty env1 s1 h1, List.nil_append]
    intro hmem
    have hsub := (newClusterFromHost_master env1 s1 nodes1 s1.bindHost).1
    have hmem2 := hsub.subset hmem
    simp [fromHostOrder] at hmem2
  · simp only [newCluster, resolveBindHost_nonempty env1 s1 h1, List.nil_append]
    obtain ⟨tl, htl⟩ := newClusterFromHost_trace_head env1 s1 nodes1 s1.bindHost
    rw [htl]
    rfl
  · simp [newCluster, resolveBindHost_empty_err env2 s2 e h2 h2e]
  · simp [newCluster, resolveBindHost_empty_err env2 s2 e h2 h2e]
  · simp only [newCluster, resolveBindHost_empty_ok env3 s3 h3 h3ok]
    obtain ⟨tl, htl⟩ :=
      newClusterFromHost_trace_head env3 s3 nodes3 (getFirstLocalAddr env3.interfaces).1
    simp [htl]

/-- Witness for C7: a configured host, an empty-interface environment, and an
auto-detecting environment. -/
theorem newCluster_bind_resolution_witness :
    (StepKind.getFirstLocalAddr ∉
        (newCluster envAllOk sC7 ["10.0.0.1:11291"]).1.map Step.kind
      ∧ (newCluster envAllOk sC7 ["10.0.0.1:11291"]).1.head? =
          some (Step.resolveTCPAddr (sC7.bindHost ++ ":" ++ toString sC7.bindPort)))
    ∧ ((newCluster envNoIfaces sDef ["10.0.0.1:11291"]).1 = [Step.getFirstLocalAddr]
      ∧ (newCluster envNoIfaces sDef ["10.0.0.1:11291"]).2 =
          Except.error (FatalError.resolution "Unable to find local address to bind"))
    ∧ (newCluster envAllOk sDef ["10.0.0.1:11291"]).1.take 2 =
        [Step.getFirstLocalAddr,
         Step.resolveTCPAddr
           ((getFirstLocalAddr envAllOk.interfaces).1 ++ ":" ++ toString sDef.bindPort)] :=
  newCluster_bind_resolution envAllOk envNoIfaces envAllOk sC7 sDef sDef
    ["10.0.0.1:11291"] ["10.0.0.1:11291"] ["10.0.0.1:11291"]
    "Unable to find local address to bind"
    (by decide) (by decide) (by decide) (by decide) (by decide)

/-- C4 counterexample: every checked constructor succeeds but persisting the
seeded peer registry fails, and `NewCluster` still returns a constructed
cluster — the error of `peerStore.SetPeers(clusterNodes)` is discarded
(cluster.go line 106), so a failure at that bootstrap step is not fatal,
contrary to the claim. -/
theorem newCluster_setPeers_failure_not_fatal :
    envSetPeersFails.setPeers (newJSONPeers "/var/lib/kandalf" ⟨0⟩)
        ["10.0.0.1:11291", "10.0.0.2:11291"] = none
    ∧ (newCluster envSetPeersFails sDef ["10.0.0.1:11291", "10.0.0.2:11291"]).2 =
        Except.ok { raft := ⟨0⟩ } :=
  ⟨rfl, rfl⟩

/-- C4 as amended: every checked failure is fatal and fail-fast — the calls
made are an in-order, at-most-once sublist of the canonical bootstrap order,
and on a fatal exit the trace ends exactly at the failing call, with no retry
and nothing after it. However, the error of persisting the seeded peer
registry is discarded: the outcome of `NewCluster` is entirely independent of
the `SetPeers` oracle. -/
theorem newCluster_failfast_amended (env env2 : Env) (s s2 : ClusterSettings)
    (nodes nodes2 : List String) (f : JSONPeers → List String → Option Unit)
    (e : FatalError)
    (he : (newCluster env2 s2 nodes2).2 = Except.error e) :
    List.Sublist ((newCluster env s nodes).1.map Step.kind) bootstrapOrder
    ∧ ((newCluster env2 s2 nodes2).1.map Step.kind).getLast? = some e.stepKind
    ∧ newCluster { env with setPeers := f } s nodes = newCluster env s nodes := by
  refine ⟨(newCluster_master env s nodes).1,
    (newCluster_master env2 s2 nodes2).2 e he, ?_⟩
  simp [newCluster, resolveBindHost, newClusterFromHost, effectiveTimeout]

/-- Witness for C4 as amended: a fully successful run, a run failing at the
bolt store, and a run with a failing `SetPeers` oracle. -/
theorem newCluster_failfast_amended_witness :
    List.Sublist
        ((newCluster envAllOk sDef ["10.0.0.1:11291"]).1.map Step.kind)
        bootstrapOrder
    ∧ ((newCluster envBoltFails sDef ["10.0.0.1:11291"]).1.map Step.kind).getLast? =
        some (FatalError.boltStore "/var/lib/kandalf/raft.db").stepKind
    ∧ newCluster { envAllOk with setPeers := fun _ _ => none } sDef
        ["10.0.0.1:11291"] =
      newCluster envAllOk sDef ["10.0.0.1:11291"] :=
  newCluster_failfast_amended envAllOk envBoltFails sDef sDef
    ["10.0.0.1:11291"] ["10.0.0.1:11291"] (fun _ _ => none)
    (FatalError.boltStore "/var/lib/kandalf/raft.db") rfl

end Kandalf

